import Mathlib

/-!
Verification of the express-template-mock-server repository.

The development shallowly embeds the JavaScript sources:
  * `src/lib/server-utils.js` — config validation, condition matching,
    Handlebars-based template processing;
  * `src/lib/server.js` — middleware pipeline and per-route dispatcher.

JavaScript values are modelled by the inductive type `JSValue`; a thrown
exception is modelled by `Except.error`; the wall clock (`Date.now()`)
is passed explicitly as an integer parameter `now`.
-/

namespace MockServer

/-- Model of a JavaScript runtime value (the subset reachable from a JSON
config and an Express request): `undefined`, `null`, booleans, numbers,
strings, arrays and plain objects (field lists in insertion order). -/
inductive JSValue where
  | undefined
  | null
  | bool (b : Bool)
  | num (n : Int)
  | str (s : String)
  | arr (items : List JSValue)
  | obj (fields : List (String × JSValue))

/-- JavaScript truthiness: `undefined`, `null`, `false`, `0` and the empty
string are falsy; every object or array is truthy. -/
def truthy : JSValue → Bool
  | .undefined => false
  | .null => false
  | .bool b => b
  | .num n => n != 0
  | .str s => !s.isEmpty
  | .arr _ => true
  | .obj _ => true

/-- Own enumerable entries of a value, as produced by object spread
(`...v`): objects yield their fields, arrays and strings yield indexed
entries, and primitives (including `null`/`undefined`, which spread
silently) yield nothing. -/
def spreadEntries : JSValue → List (String × JSValue)
  | .obj fields => fields
  | .arr items => items.enum.map (fun p => (toString p.1, p.2))
  | .str s => s.data.enum.map (fun p => (toString p.1, JSValue.str (String.mk [p.2])))
  | _ => []

/-- Model of `Object.entries(v)`: same entries as spreading, except that
`null` and `undefined` arguments throw a `TypeError`. -/
def jsEntries : JSValue → Except Unit (List (String × JSValue))
  | .undefined => .error ()
  | .null => .error ()
  | v => .ok (spreadEntries v)

/-- Model of `Object.keys(v)`. -/
def jsKeys (v : JSValue) : Except Unit (List String) :=
  (·.map (·.1)) <$> jsEntries v

/-- Model of property access `v[key]` on a non-null value: object field
lookup, array/string indexing and `length`; a missing property is
`undefined`. -/
def jsIndex : JSValue → String → JSValue
  | .obj fields, k => (List.lookup k fields).getD .undefined
  | .arr items, k =>
      if k = "length" then .num items.length
      else match k.toNat? with
        | some i => (items.get? i).getD .undefined
        | none => .undefined
  | .str s, k =>
      if k = "length" then .num s.length
      else match k.toNat? with
        | some i =>
            match s.data.get? i with
            | some c => .str (String.mk [c])
            | none => .undefined
        | none => .undefined
  | _, _ => .undefined

/-- Model of JavaScript strict equality (`===`) as it occurs in
`matchValues`: primitives compare by value; for arrays and objects `===`
is reference equality, and since in this program the expected value
always comes from the parsed config file while the actual value comes
from the incoming request, the two composite values are always distinct
allocations, so the comparison is always `false` for them. -/
def jsStrictEq : JSValue → JSValue → Bool
  | .undefined, .undefined => true
  | .null, .null => true
  | .bool a, .bool b => a == b
  | .num a, .num b => a == b
  | .str a, .str b => a == b
  | _, _ => false

/-- Assignment `obj[k] = v` on a field list: overwrite in place if the key
exists (JavaScript keeps the original insertion position), append
otherwise. -/
def objSet (fields : List (String × JSValue)) (k : String) (v : JSValue) :
    List (String × JSValue) :=
  if fields.any (fun kv => kv.1 == k) then
    fields.map (fun kv => if kv.1 == k then (k, v) else kv)
  else
    fields ++ [(k, v)]

/-- Property write `target.k = v`: effective on objects, a silent no-op on
the primitive values this program can reach here. -/
def jsSetField (target : JSValue) (k : String) (v : JSValue) : JSValue :=
  match target with
  | .obj fields => .obj (objSet fields k v)
  | other => other

/-- Object-literal merge `\x7b ...a, ...b, ... \x7d`: later entries win on key
collision, earlier insertion position is kept. -/
def objMergeEntries (entries : List (String × JSValue)) : JSValue :=
  .obj (entries.foldl (fun acc kv => objSet acc kv.1 kv.2) [])

/-! ### `server-utils.js`: condition matching -/

/-- Embedding of `matchValues(expected, actual)` from
`src/lib/server-utils.js` (lines 225–235): falsy `actual` fails; otherwise
every entry of `expected` must be strictly equal (`===`) to the
corresponding property of `actual`.  `Object.entries(expected)` throws on
`null`/`undefined`, modelled by `Except.error`. -/
def matchValues (expected actual : JSValue) : Except Unit Bool :=
  if truthy actual = false then .ok false
  else
    match jsEntries expected with
    | .error e => .error e
    | .ok es => .ok (es.all (fun kv => jsStrictEq (jsIndex actual kv.1) kv.2))

/-- The per-request data exposed to the dispatcher: path parameters, query
parameters, parsed body, request headers, and the arrival timestamp set by
the response-time middleware. -/
structure Req where
  params : JSValue
  query : JSValue
  body : JSValue
  headers : JSValue
  startTime : Int

/-- Property access `req[field]` for the request properties this program
reads; any other property is `undefined`. -/
def reqGet (r : Req) : String → JSValue
  | "params" => r.params
  | "query" => r.query
  | "body" => r.body
  | "headers" => r.headers
  | "startTime" => .num r.startTime
  | _ => .undefined

/-- Loop body of `checkConditions`: check the condition entries in order,
returning `false` at the first failed section (later sections are then not
evaluated, exactly like the early `return false` in the source). -/
def checkConditionsLoop (req : Req) : List (String × JSValue) → Except Unit Bool
  | [] => .ok true
  | (field, expected) :: rest =>
      match matchValues expected (reqGet req field) with
      | .error e => .error e
      | .ok true => checkConditionsLoop req rest
      | .ok false => .ok false

/-- Embedding of `checkConditions(conditions, req)` from
`src/lib/server-utils.js` (lines 206–217). -/
def checkConditions (conditions : JSValue) (req : Req) : Except Unit Bool :=
  if truthy conditions = false then .ok true
  else
    match jsEntries conditions with
    | .error e => .error e
    | .ok cs => checkConditionsLoop req cs

/-! ### `server-utils.js`: config validation -/

/-- Embedding of `validateConditions(conditions)` from
`src/lib/server-utils.js` (lines 116–123). -/
def validateConditions (conditions : JSValue) : Except String Unit := do
  let validFields := ["query", "headers", "body"]
  match jsKeys conditions with
  | .error _ => .error "TypeError"
  | .ok keys =>
      let invalidFields := keys.filter (fun k => !validFields.contains k)
      if invalidFields.isEmpty then .ok ()
      else .error ("Invalid condition fields: " ++ String.intercalate ", " invalidFields)

/-- The allowed CORS option keys. -/
def validCorsFields : List String :=
  ["origin", "methods", "allowedHeaders", "exposedHeaders",
   "credentials", "maxAge", "preflightContinue", "optionsSuccessStatus"]

/-- True when the value is an array. -/
def isArrayVal : JSValue → Bool
  | .arr _ => true
  | _ => false

/-- True when `typeof v === 'object'` in JavaScript: objects, arrays and
`null`. -/
def typeofIsObject : JSValue → Bool
  | .obj _ => true
  | .arr _ => true
  | .null => true
  | _ => false

/-- True when `typeof v === 'number'`. -/
def isNumberVal : JSValue → Bool
  | .num _ => true
  | _ => false

/-- True when `typeof v === 'string'`. -/
def isStringVal : JSValue → Bool
  | .str _ => true
  | _ => false

/-- True when `typeof v === 'boolean'`. -/
def isBoolVal : JSValue → Bool
  | .bool _ => true
  | _ => false

/-- True when the value is `undefined`. -/
def isUndefVal : JSValue → Bool
  | .undefined => true
  | _ => false

/-- Per-route checks of `validateConfig` in `src/lib/server-utils.js`
(lines 93–105): each route needs a truthy `method` and `path`, a truthy
`response` or `errorCode`, and valid condition keys. -/
def validateRoutesLoop : List JSValue → Except String Unit
  | [] => .ok ()
  | route :: rest =>
      if truthy (jsIndex route "method") = false ∨ truthy (jsIndex route "path") = false then
        .error "Each route must have a method and path"
      else if truthy (jsIndex route "response") = false ∧
          truthy (jsIndex route "errorCode") = false then
        .error "Each route must have either a response or errorCode"
      else
        match (if truthy (jsIndex route "conditions") then
            validateConditions (jsIndex route "conditions")
          else .ok ()) with
        | .error e => .error e
        | .ok _ => validateRoutesLoop rest

/-- Embedding of `validateConfig(config)` from `src/lib/server-utils.js`
(lines 72–106): requires a `routes` array, checks CORS option keys when
`globals.cors` is a truthy object, then validates each route. -/
def validateConfig (config : JSValue) : Except String Unit :=
  if truthy config = false ∨ isArrayVal (jsIndex config "routes") = false then
    .error "Config must have a \"routes\" array"
  else
    let globals := jsIndex config "globals"
    let corsVal := jsIndex globals "cors"
    let corsCheck : Except String Unit :=
      if truthy globals ∧ truthy corsVal ∧ typeofIsObject corsVal then
        match jsKeys corsVal with
        | .error _ => .error "TypeError"
        | .ok corsKeys =>
            let invalidFields := corsKeys.filter (fun k => !validCorsFields.contains k)
            if invalidFields.isEmpty then .ok ()
            else .error ("Invalid CORS configuration fields: " ++
              String.intercalate ", " invalidFields)
      else .ok ()
    match corsCheck with
    | .error e => .error e
    | .ok _ =>
        match jsIndex config "routes" with
        | .arr routes => validateRoutesLoop routes
        | _ => .ok ()

/-- Per-route checks of the `validateConfig` variant kept at
`src/unnamed/part_000` (lines 149–168): method/path, condition keys, an
`errorCode` that must be a number in [400,599] when present
(`route.errorCode !== undefined`), and a `delay` that must be a
non-negative number when present.  This variant has no
response-or-errorCode requirement. -/
def validateRoutesLoopV0 : List JSValue → Except String Unit
  | [] => .ok ()
  | route :: rest =>
      if truthy (jsIndex route "method") = false ∨ truthy (jsIndex route "path") = false then
        .error "Each route must have a method and path"
      else
        match (if truthy (jsIndex route "conditions") then
            validateConditions (jsIndex route "conditions")
          else .ok ()) with
        | .error e => .error e
        | .ok _ =>
            match (match jsIndex route "errorCode" with
              | .undefined => (.ok () : Except String Unit)
              | .num c =>
                  if c < 400 ∨ 599 < c then
                    .error "errorCode must be a valid HTTP error status code (400-599)"
                  else .ok ()
              | _ => .error "errorCode must be a valid HTTP error status code (400-599)") with
            | .error e => .error e
            | .ok _ =>
                match (match jsIndex route "delay" with
                  | .undefined => (.ok () : Except String Unit)
                  | .num d =>
                      if d < 0 then .error "delay must be a non-negative number" else .ok ()
                  | _ => .error "delay must be a non-negative number") with
                | .error e => .error e
                | .ok _ => validateRoutesLoopV0 rest

/-- Embedding of `validateCorsOptions(corsOptions)` from
`src/unnamed/part_000` (lines 86–128): key check plus per-field type
checks. -/
def validateCorsOptions (corsOptions : JSValue) : Except String Unit :=
  match jsKeys corsOptions with
  | .error _ => .error "TypeError"
  | .ok corsKeys =>
      let invalidFields := corsKeys.filter (fun k => !validCorsFields.contains k)
      if !invalidFields.isEmpty then
        .error ("Invalid CORS configuration fields: " ++
          String.intercalate ", " invalidFields)
      else
        let methodsVal := jsIndex corsOptions "methods"
        let allowedVal := jsIndex corsOptions "allowedHeaders"
        let exposedVal := jsIndex corsOptions "exposedHeaders"
        let maxAgeVal := jsIndex corsOptions "maxAge"
        let credVal := jsIndex corsOptions "credentials"
        if truthy methodsVal && !isArrayVal methodsVal && !isStringVal methodsVal then
          .error "CORS methods must be a string or an array of strings"
        else if truthy allowedVal && !isArrayVal allowedVal && !isStringVal allowedVal then
          .error "CORS allowedHeaders must be a string or an array of strings"
        else if truthy exposedVal && !isArrayVal exposedVal && !isStringVal exposedVal then
          .error "CORS exposedHeaders must be a string or an array of strings"
        else if !isUndefVal maxAgeVal && !isNumberVal maxAgeVal then
          .error "CORS maxAge must be a number"
        else if !isUndefVal credVal && !isBoolVal credVal then
          .error "CORS credentials must be a boolean"
        else
          match jsIndex corsOptions "optionsSuccessStatus" with
          | .undefined => .ok ()
          | .num s =>
              if s < 200 ∨ 299 < s then
                .error "CORS optionsSuccessStatus must be a valid 2xx HTTP status code"
              else .ok ()
          | _ => .error "CORS optionsSuccessStatus must be a valid 2xx HTTP status code"

/-- Embedding of the `validateConfig(config)` variant kept at
`src/unnamed/part_000` (lines 139–169); this is the variant the
repository's own test suite `src/__tests__/server-utils.test.js`
exercises (it rejects out-of-range `errorCode` and negative `delay`). -/
def validateConfigV0 (config : JSValue) : Except String Unit :=
  if truthy config = false ∨ isArrayVal (jsIndex config "routes") = false then
    .error "Config must have a \"routes\" array"
  else
    let globals := jsIndex config "globals"
    let corsVal := jsIndex globals "cors"
    match (if truthy globals ∧ truthy corsVal ∧ typeofIsObject corsVal then
        validateCorsOptions corsVal
      else .ok ()) with
    | .error e => .error e
    | .ok _ =>
        match jsIndex config "routes" with
        | .arr routes => validateRoutesLoopV0 routes
        | _ => .ok ()

/-! ### Template engine

The repository delegates template evaluation to the external Handlebars
library.  The engine itself is not part of the repository, so its
behaviour on the fragment actually used is modelled from the spec
(section 4.1 and 6): plain text renders to itself unchanged, and a
`\x7b\x7bname\x7d\x7d` placeholder is replaced by the HTML-escaped string
coercion of the context field `name` (an absent field renders as the
empty string).  Helper invocations with arguments and block constructs
are outside the fragment the claims exercise. -/

/-- HTML escaping applied by Handlebars to substituted values. -/
def escapeHtmlChar : Char → List Char
  | '&' => "&amp;".data
  | '<' => "&lt;".data
  | '>' => "&gt;".data
  | '"' => "&quot;".data
  | c => [c]

/-- String coercion used when a context value is substituted into a
template: `null`/`undefined` render as the empty string, primitives by
their usual string form, arrays join with commas, objects render as
`[object Object]`. -/
def jsToString : JSValue → String
  | .undefined => ""
  | .null => ""
  | .bool b => if b then "true" else "false"
  | .num n => toString n
  | .str s => s
  | .arr _ => ""
  | .obj _ => "[object Object]"

/-- Whitespace trimming of a placeholder name (Handlebars allows spaces
inside the braces). -/
def trimChars (cs : List Char) : List Char :=
  ((cs.dropWhile (fun c => c = ' ')).reverse.dropWhile (fun c => c = ' ')).reverse

/-- Value substituted for `\x7b\x7bname\x7d\x7d`: look the trimmed name up in
the context and HTML-escape its string coercion. -/
def hbLookup (ctx : JSValue) (name : List Char) : List Char :=
  ((jsToString (jsIndex ctx (String.mk (trimChars name)))).data.map escapeHtmlChar).flatten

/-- Modelled from the spec: the Handlebars rendering loop over the
character list of a template.  Plain characters are copied; on
`\x7b\x7b` the name up to the closing `\x7d\x7d` is substituted via
`hbLookup`; a missing closing brace pair is a parse error.  The `fuel`
argument (always instantiated with the length of the character list)
makes the recursion structural; every step consumes at least one
character, so the fuel never runs out on the initial call. -/
def hbChars (ctx : JSValue) : Nat → List Char → Except Unit (List Char)
  | _, [] => .ok []
  | 0, _ :: _ => .error ()
  | fuel + 1, c :: rest =>
      if c = '{' ∧ rest.head? = some '{' then
        let inner := rest.tail
        let name := inner.takeWhile (fun x => x ≠ '}')
        match inner.dropWhile (fun x => x ≠ '}') with
        | '}' :: '}' :: rest₂ =>
            (match hbChars ctx fuel rest₂ with
             | .error e => .error e
             | .ok out => .ok (hbLookup ctx name ++ out))
        | _ => .error ()
      else
        match hbChars ctx fuel rest with
        | .error e => .error e
        | .ok out => .ok (c :: out)

/-- Modelled from the spec: `Handlebars.compile(template)(ctx)`. -/
def hbRender (ctx : JSValue) (s : String) : Except Unit String :=
  (String.mk ·) <$> hbChars ctx s.data.length s.data

/-- Embedding of `processTemplate(template, data)` from
`src/lib/server-utils.js` (lines 132–161).  The first component is the
result (`Except.error` models a thrown error); the second component is
the caller's `data` argument after the call, exposing the in-place
mutation: when `data` is truthy and its `startTime` is not a number, the
function writes `Date.now()` (the `now` parameter) into
`data.startTime` before rendering.  A non-string template throws before
that write; an empty render result throws after it. -/
def processTemplate (template : JSValue) (data : JSValue) (now : Int) :
    Except Unit String × JSValue :=
  match template with
  | .str s =>
      let safeData := if truthy data then data else JSValue.obj []
      let prepared :=
        if isNumberVal (jsIndex safeData "startTime") then safeData
        else jsSetField safeData "startTime" (.num now)
      let dataAfter := if truthy data then prepared else data
      match hbRender prepared s with
      | .error _ => (.error (), dataAfter)
      | .ok result =>
          if result = "" then (.error (), dataAfter) else (.ok result, dataAfter)
  | _ => (.error (), data)

mutual

/-- Embedding of `processJsonTemplate(json, data)` from
`src/lib/server-utils.js` (lines 170–198): strings go through
`processTemplate`, arrays and objects recurse (the first failure
propagates), all other values pass through unchanged.  The `startTime`
write performed by `processTemplate` is idempotent for a fixed `now`, so
the data object is passed unthreaded. -/
def processJsonTemplate (data : JSValue) (now : Int) : JSValue → Except Unit JSValue
  | .str s =>
      (match (processTemplate (.str s) data now).1 with
       | .error e => .error e
       | .ok result => .ok (.str result))
  | .arr items =>
      (match processJsonList data now items with
       | .error e => .error e
       | .ok out => .ok (.arr out))
  | .obj fields =>
      (match processJsonFields data now fields with
       | .error e => .error e
       | .ok out => .ok (.obj out))
  | v => .ok v

/-- Recursion of `processJsonTemplate` over `json.map(...)`. -/
def processJsonList (data : JSValue) (now : Int) :
    List JSValue → Except Unit (List JSValue)
  | [] => .ok []
  | v :: rest =>
      (match processJsonTemplate data now v with
       | .error e => .error e
       | .ok hd =>
          match processJsonList data now rest with
          | .error e => .error e
          | .ok tl => .ok (hd :: tl))

/-- Recursion of `processJsonTemplate` over `Object.entries(json)`. -/
def processJsonFields (data : JSValue) (now : Int) :
    List (String × JSValue) → Except Unit (List (String × JSValue))
  | [] => .ok []
  | (k, v) :: rest =>
      (match processJsonTemplate data now v with
       | .error e => .error e
       | .ok hd =>
          match processJsonFields data now rest with
          | .error e => .error e
          | .ok tl => .ok ((k, hd) :: tl))

end

/-- True when the character list contains no `\x7b\x7b` template opener:
such text is rendered verbatim by the template engine. -/
def templateFreeChars : List Char → Bool
  | [] => true
  | c :: rest => ((c != '{') || (rest.head? != some '{')) && templateFreeChars rest

mutual

/-- Every string leaf of the JSON value satisfies the predicate `p`. -/
def allStringLeaves (p : String → Bool) : JSValue → Bool
  | .str s => p s
  | .arr items => allStringLeavesList p items
  | .obj fields => allStringLeavesFields p fields
  | _ => true

/-- List recursion of `allStringLeaves`. -/
def allStringLeavesList (p : String → Bool) : List JSValue → Bool
  | [] => true
  | v :: rest => allStringLeaves p v && allStringLeavesList p rest

/-- Field recursion of `allStringLeaves`. -/
def allStringLeavesFields (p : String → Bool) : List (String × JSValue) → Bool
  | [] => true
  | (_, v) :: rest => allStringLeaves p v && allStringLeavesFields p rest

end

/-- The JSON value contains no template syntax in any string leaf. -/
def templateFreeJson : JSValue → Bool :=
  allStringLeaves (fun s => templateFreeChars s.data)

/-- No string leaf of the JSON value is the empty string. -/
def noEmptyStringLeaf : JSValue → Bool :=
  allStringLeaves (fun s => s != "")

/-! ### `server.js`: dispatcher and middleware pipeline

All the `Date.now()` calls inside one request are collapsed into the
single parameter `now`; the passage of time between them is not
observable by any of the verified properties, and the only timestamp the
handlers read is `req.startTime`, set once by the response-time
middleware. -/

/-- Outcome of handling one request.  `status` and `body` are the
arguments of the final `res.status(...).json(...)`; `headersSet` are the
headers the handler itself set via `res.set` (in order); `delayedMs` is
the duration of the `setTimeout` suspension that was awaited (0 when the
delay branch was not taken); `renderedResponse` records whether the
handler reached the `processJsonTemplate(route.response, ...)` call. -/
structure HandleResult where
  status : JSValue
  body : JSValue
  headersSet : List (String × String)
  delayedMs : Int
  renderedResponse : Bool

/-- JSON error body `\x7b "error": msg \x7d`. -/
def errorBody (msg : String) : JSValue := .obj [("error", .str msg)]

/-- Template data for route handlers in `setupRoutes`
(`src/lib/server.js` lines 290–296 and 326–332): spread of `req.params`,
`req.query`, `req.body` (later spreads win), then `startTime` and
`responseTime`. -/
def mkTemplateData (req : Req) (now : Int) : JSValue :=
  objMergeEntries (spreadEntries req.params ++ spreadEntries req.query ++
    spreadEntries req.body ++
    [("startTime", .num req.startTime), ("responseTime", .num (now - req.startTime))])

/-- Header loop shared by the route handler and the global-headers
middleware (`src/lib/server.js` lines 164–181 and 285–311): render each
header value, set it on success, count the failure and continue on
error.  Returns the headers set and the number of failures. -/
def processHeadersLoop (data : JSValue) (now : Int) :
    List (String × JSValue) → List (String × String) × Nat
  | [] => ([], 0)
  | (header, value) :: rest =>
      let tail := processHeadersLoop data now rest
      match (processTemplate value data now).1 with
      | .ok s => ((header, s) :: tail.1, tail.2)
      | .error _ => (tail.1, tail.2 + 1)

/-- The `X-Header-Warning` entry added when `headerErrors.length > 0`. -/
def headerWarning (errs : Nat) : String :=
  "Failed to process " ++ toString errs ++ " headers"

/-- Number of route-header template failures for a given route and
request. -/
def routeHeaderErrors (route : JSValue) (req : Req) (now : Int) : Nat :=
  if truthy (jsIndex route "headers") then
    (processHeadersLoop (mkTemplateData req now) now
      (spreadEntries (jsIndex route "headers"))).2
  else 0

/-- The headers set on a response that reached the header stage of the
route handler (`src/lib/server.js` lines 283–312): every successfully
rendered route header in order, plus the `X-Header-Warning` summary when
at least one header failed. -/
def routeHeadersSet (route : JSValue) (req : Req) (now : Int) : List (String × String) :=
  let pair :=
    if truthy (jsIndex route "headers") then
      processHeadersLoop (mkTemplateData req now) now
        (spreadEntries (jsIndex route "headers"))
    else ([], 0)
  if pair.2 > 0 then pair.1 ++ [("X-Header-Warning", headerWarning pair.2)] else pair.1

/-- Milliseconds of `setTimeout` suspension the handler awaits
(`src/lib/server.js` lines 321–323): the configured `delay` when truthy,
otherwise no suspension. -/
def routeDelay (route : JSValue) : Int :=
  if truthy (jsIndex route "delay") then
    match jsIndex route "delay" with
    | .num d => d
    | _ => 0
  else 0

/-- Continuation of the route handler after the condition stage
(`src/lib/server.js` lines 283–342): set route headers, short-circuit on
`errorCode`, await the delay, then render and send the response body. -/
def handleRouteProceed (route : JSValue) (req : Req) (now : Int) : HandleResult :=
  let hdrs := routeHeadersSet route req now
  if truthy (jsIndex route "errorCode") then
    ⟨jsIndex route "errorCode",
      (if truthy (jsIndex route "errorMessage") then
        JSValue.obj [("error", jsIndex route "errorMessage")]
      else errorBody "Internal server error"),
      hdrs, 0, false⟩
  else
    match processJsonTemplate (mkTemplateData req now) now (jsIndex route "response") with
    | .ok response => ⟨.num 200, response, hdrs, routeDelay route, true⟩
    | .error _ => ⟨.num 500, errorBody "Internal server error", hdrs, routeDelay route, true⟩

/-- Body of the `async (req, res)` route handler registered by
`setupRoutes` in `src/lib/server.js` (lines 267–347), up to but not
including the outer catch-all.  The only exception that can escape to
the outer catch is one thrown by `checkConditions` (header and response
template failures are caught locally). -/
def handleRouteCore (route : JSValue) (req : Req) (now : Int) :
    Except Unit HandleResult :=
  if truthy (jsIndex route "conditions") then
    match checkConditions (jsIndex route "conditions") req with
    | .error e => .error e
    | .ok true => .ok (handleRouteProceed route req now)
    | .ok false =>
        if truthy (jsIndex route "fallback") then
          .ok ⟨.num 200, jsIndex route "fallback", [], 0, false⟩
        else
          .ok ⟨.num 400, errorBody "Conditions not met", [], 0, false⟩
  else .ok (handleRouteProceed route req now)

/-- The registered route handler including its outer catch-all
(`src/lib/server.js` lines 343–346): any escaped exception becomes a 500
`Internal server error` response. -/
def handleRoute (route : JSValue) (req : Req) (now : Int) : HandleResult :=
  match handleRouteCore route req now with
  | .ok r => r
  | .error _ => ⟨.num 500, errorBody "Internal server error", [], 0, false⟩

/-- The mutable server state created by `createState` in
`src/lib/server.js` (lines 24–30); only the fields the dispatcher reads
are modelled (the listener, watcher and timer handles are opaque OS
resources). -/
structure ServerState where
  isShuttingDown : Bool
  config : JSValue

/-- Security headers set unconditionally by
`setupSecurityHeadersMiddleware`. -/
def securityHeaders : List (String × String) :=
  [("X-Content-Type-Options", "nosniff"), ("X-Frame-Options", "DENY"),
   ("X-Powered-By", "Express Template Mock Server")]

/-- Headers produced by the global-headers middleware
(`setupGlobalHeadersMiddleware`, `src/lib/server.js` lines 161–191):
each global header is rendered against `\x7b startTime, responseTime \x7d`;
failures are skipped and summarised in `X-Header-Warning`. -/
def globalHeaders (config : JSValue) (req : Req) (now : Int) : List (String × String) :=
  if truthy (jsIndex config "globals") ∧
      truthy (jsIndex (jsIndex config "globals") "headers") then
    let data := JSValue.obj
      [("startTime", .num req.startTime), ("responseTime", .num (now - req.startTime))]
    let pair := processHeadersLoop data now
      (spreadEntries (jsIndex (jsIndex config "globals") "headers"))
    if pair.2 > 0 then pair.1 ++ [("X-Header-Warning", headerWarning pair.2)]
    else pair.1
  else []

/-- The middleware pipeline built by `setupMiddleware` plus route
dispatch (`src/lib/server.js` lines 246–253 and 260–354), after body
parsing and the external CORS middleware.  `matched` is the Express
router's decision: the configured route whose method and path match the
request, or `none` (then the catch-all 404 responder answers).  The
shutdown middleware runs before the global-headers, security-headers and
route layers, so when `state.isShuttingDown` is set none of them run —
the second component records whether a route handler ran at all. -/
def dispatch (state : ServerState) (config : JSValue) (matched : Option JSValue)
    (req : Req) (now : Int) : HandleResult × Bool :=
  if state.isShuttingDown then
    (⟨.num 503, errorBody "Server is shutting down", [], 0, false⟩, false)
  else
    let ghdrs := globalHeaders config req now
    match matched with
    | some route =>
        let r := handleRoute route req now
        (⟨r.status, r.body, ghdrs ++ securityHeaders ++ r.headersSet,
          r.delayedMs, r.renderedResponse⟩, true)
    | none =>
        (⟨.num 404, errorBody "Not Found", ghdrs ++ securityHeaders, 0, false⟩, false)

/-! ### Structural (deep) equality and the spec's reading of `matchValues`

The spec describes `matchValues` as a deep structural comparison.  The
following definitions formalise that sentence (they are the
specification side of the refinement claim about `matchValues`, not a
translation of the source). -/

mutual

/-- Structural equality of two values (deep equality). -/
def jsDeepEq : JSValue → JSValue → Bool
  | .undefined, .undefined => true
  | .null, .null => true
  | .bool a, .bool b => a == b
  | .num a, .num b => a == b
  | .str a, .str b => a == b
  | .arr a, .arr b => jsDeepEqList a b
  | .obj a, .obj b => jsDeepEqFields a b
  | _, _ => false

/-- Element-for-element structural equality of two arrays. -/
def jsDeepEqList : List JSValue → List JSValue → Bool
  | [], [] => true
  | a :: as₁, b :: bs₁ => jsDeepEq a b && jsDeepEqList as₁ bs₁
  | _, _ => false

/-- Field-for-field structural equality of two objects. -/
def jsDeepEqFields : List (String × JSValue) → List (String × JSValue) → Bool
  | [], [] => true
  | (k₁, a) :: as₁, (k₂, b) :: bs₁ => k₁ == k₂ && jsDeepEq a b && jsDeepEqFields as₁ bs₁
  | _, _ => false

end

mutual

/-- Modelled from the spec (section 4.2): one expected value matches the
actual value found at its key — strict equality for scalars, deep
equality down each explicitly listed key for nested objects, and
element-for-element equality for arrays. -/
def specMatchValue : JSValue → JSValue → Bool
  | .obj es, a => (match a with | .obj _ => true | _ => false) && specMatchFields es a
  | .arr xs, a => jsDeepEq (.arr xs) a
  | e, a => jsStrictEq e a

/-- Modelled from the spec: every listed key of the expected map must be
present in the actual value with a matching value. -/
def specMatchFields : List (String × JSValue) → JSValue → Bool
  | [], _ => true
  | (k, v) :: rest, a =>
      !isUndefVal (jsIndex a k) && specMatchValue v (jsIndex a k) && specMatchFields rest a

end

/-- Modelled from the spec: the claimed meaning of
`matchValues(expected, actual)` for an expected-value map — every key
listed in `expected` is present in `actual` with a deeply equal value in
the sense of `specMatchValue`. -/
def specMatchValues (expected actual : JSValue) : Bool :=
  match expected with
  | .obj es => specMatchFields es actual
  | _ => true

/-- True when the value is neither `null` nor `undefined` (the values on
which `Object.entries` throws). -/
def notNullish : JSValue → Bool
  | .null => false
  | .undefined => false
  | _ => true

/-! ## Supporting lemmas -/

/-- On a truthy value `Object.entries` cannot throw: it returns the spread
entries. -/
theorem jsEntries_of_truthy (v : JSValue) (h : truthy v = true) :
    jsEntries v = .ok (spreadEntries v) := by
  cases v <;> first | rfl | simp [truthy] at h

/-- `matchValues` returns a boolean whenever its expected value is not
nullish. -/
theorem matchValues_total (e a : JSValue) (h : notNullish e = true) :
    ∃ b, matchValues e a = Except.ok b := by
  unfold matchValues
  by_cases ht : truthy a = false
  · exact ⟨false, by rw [if_pos ht]⟩
  · rw [if_neg ht]
    have he : jsEntries e = .ok (spreadEntries e) := by
      cases e <;> first | rfl | simp [notNullish] at h
    rw [he]
    exact ⟨_, rfl⟩

/-- The condition loop returns a boolean whenever every expected section
value is not nullish. -/
theorem checkConditionsLoop_total (req : Req) :
    ∀ l : List (String × JSValue),
      (l.all fun kv => notNullish kv.2) = true →
      ∃ b, checkConditionsLoop req l = Except.ok b
  | [], _ => ⟨true, rfl⟩
  | (f, e) :: rest, h => by
      rw [List.all_cons, Bool.and_eq_true] at h
      obtain ⟨b, hb⟩ := matchValues_total e (reqGet req f) h.1
      obtain ⟨b₂, hb₂⟩ := checkConditionsLoop_total req rest h.2
      unfold checkConditionsLoop
      rw [hb]
      cases b
      · exact ⟨false, rfl⟩
      · exact ⟨b₂, hb₂⟩

/-! ## Claims -/

/-- Claim C2, counterexample.  The expected map `\x7b a: [1] \x7d` and the
actual map `\x7b a: [1] \x7d` are deeply equal in the sense the claim
describes (`specMatchValues` is the claim's reading of the matcher), yet
`matchValues` returns `false`, because `actual[key] !== value` compares
the two arrays — which come from the config and the request, hence are
distinct allocations — by reference. -/
theorem matchValues_not_deep_counterexample :
    specMatchValues (.obj [("a", .arr [.num 1])]) (.obj [("a", .arr [.num 1])]) = true ∧
    matchValues (.obj [("a", .arr [.num 1])]) (.obj [("a", .arr [.num 1])]) = .ok false :=
  ⟨rfl, rfl⟩

/-- Claim C2, amended.  `matchValues(expected, actual)` returns `true` iff
`actual` is truthy and every entry of `expected` is strictly (`===`)
equal to the property of `actual` at that key: scalars compare by value,
while a composite (array or object) expected value never matches, since
the config-supplied and request-supplied composites are distinct
references — not the element-for-element deep comparison the claim
states. -/
theorem matchValues_strict_equality (expected actual : JSValue)
    (es : List (String × JSValue)) (hes : jsEntries expected = .ok es) :
    matchValues expected actual = .ok true ↔
      (truthy actual = true ∧ ∀ kv ∈ es, jsStrictEq (jsIndex actual kv.1) kv.2 = true) := by
  unfold matchValues
  rw [hes]
  by_cases ht : truthy actual = false
  · rw [if_pos ht]
    simp [ht]
  · rw [if_neg ht]
    simp only [Bool.not_eq_false] at ht
    simp [ht, List.all_eq_true]

/-- Witness for the amended claim C2 at a concrete input. -/
theorem matchValues_strict_equality_witness :
    matchValues (.obj [("type", .str "premium")]) (.obj [("type", .str "premium")]) = .ok true :=
  (matchValues_strict_equality (.obj [("type", .str "premium")])
    (.obj [("type", .str "premium")]) [("type", .str "premium")] rfl).mpr
    ⟨rfl, by decide⟩

/-- Claim C3.  The active validator `validateConfig`
(`src/lib/server-utils.js`) accepts the route `\x7b path: "/error",
method: "GET", errorCode: 200 \x7d`, although the repository's own test
suite (`src/__tests__/server-utils.test.js`, "should throw for invalid
error code") requires exactly this input to throw, and the superseded
validator variant (`src/unnamed/part_000`, embedded as
`validateConfigV0`) does throw on it: the range and delay checks are
missing from the active file. -/
theorem validateConfig_accepts_bad_errorCode :
    validateConfig (.obj [("routes", .arr [.obj [("path", .str "/error"),
      ("method", .str "GET"), ("errorCode", .num 200)]])]) = .ok () ∧
    validateConfigV0 (.obj [("routes", .arr [.obj [("path", .str "/error"),
      ("method", .str "GET"), ("errorCode", .num 200)]])]) =
      .error "errorCode must be a valid HTTP error status code (400-599)" :=
  ⟨rfl, rfl⟩

/-- Claim C8, counterexample.  The condition set `\x7b query: null \x7d`
passes `validateConditions` (its only key is `query`), yet
`checkConditions` on a request whose query is an (empty, hence truthy)
object throws a `TypeError` from `Object.entries(null)` inside
`matchValues`. -/
theorem checkConditions_throws_counterexample :
    validateConditions (.obj [("query", JSValue.null)]) = .ok () ∧
    checkConditions (.obj [("query", JSValue.null)])
      ⟨.obj [], .obj [], .obj [], .obj [], 0⟩ = .error () :=
  ⟨rfl, rfl⟩

/-- Claim C8, amended.  `checkConditions` terminates with a boolean — it
cannot throw — provided every section value of the condition set is
neither `null` nor `undefined` (as in every well-formed config);
`validateConditions` alone does not enforce that proviso. -/
theorem checkConditions_total_on_object_sections (conds : JSValue) (req : Req)
    (h : ((spreadEntries conds).all fun kv => notNullish kv.2) = true) :
    ∃ b, checkConditions conds req = Except.ok b := by
  unfold checkConditions
  by_cases ht : truthy conds = false
  · rw [if_pos ht]
    exact ⟨true, rfl⟩
  · rw [if_neg ht]
    simp only [Bool.not_eq_false] at ht
    rw [jsEntries_of_truthy conds ht]
    exact checkConditionsLoop_total req _ h

/-- Witness for the amended claim C8 at a concrete input. -/
theorem checkConditions_total_on_object_sections_witness :
    ∃ b, checkConditions (.obj [("query", .obj [("type", .str "premium")])])
      ⟨.obj [], .obj [("type", .str "basic")], .obj [], .obj [], 0⟩ = Except.ok b :=
  checkConditions_total_on_object_sections
    (.obj [("query", .obj [("type", .str "premium")])])
    ⟨.obj [], .obj [("type", .str "basic")], .obj [], .obj [], 0⟩ rfl

/-- Claim C9, counterexample.  A document whose `routes` is the empty
array is accepted by `validateConfig` (the source only checks
`Array.isArray(config.routes)`), while the claim demands rejection of
empty route arrays. -/
theorem validateConfig_accepts_empty_routes :
    validateConfig (.obj [("routes", .arr [])]) = .ok () :=
  rfl

/-- Claim C9, amended.  `validateConfig` throws `Config must have a
"routes" array` exactly when the document is falsy or its `routes`
property is not an array; an empty `routes` array is accepted. -/
theorem validateConfig_routes_array_check :
    (∀ config : JSValue,
      truthy config = false ∨ isArrayVal (jsIndex config "routes") = false →
      validateConfig config = .error "Config must have a \"routes\" array") ∧
    validateConfig (.obj [("routes", .arr [])]) = .ok () := by
  constructor
  · intro config h
    unfold validateConfig
    rw [if_pos h]
  · rfl

/-- Witness for the amended claim C9 at a concrete input. -/
theorem validateConfig_routes_array_check_witness :
    validateConfig (.obj [("port", .num 3000)]) =
      .error "Config must have a \"routes\" array" :=
  validateConfig_routes_array_check.1 (.obj [("port", .num 3000)]) (Or.inr rfl)

/-- Claim C4.  Whenever the shutting-down flag is set, the dispatcher
answers 503 `\x7b error: "Server is shutting down" \x7d` for every config,
every request, matched route or not; no header, condition, delay or
rendering logic runs (the route-ran flag is `false` and the response
carries no headers, no delay and no rendered body). -/
theorem shutdown_shortcircuits_all_requests (state : ServerState) (config : JSValue)
    (matched : Option JSValue) (req : Req) (now : Int)
    (h : state.isShuttingDown = true) :
    dispatch state config matched req now =
      (⟨.num 503, errorBody "Server is shutting down", [], 0, false⟩, false) := by
  unfold dispatch
  rw [h]
  simp

/-- Witness for claim C4 at a concrete input. -/
theorem shutdown_shortcircuits_all_requests_witness :
    dispatch ⟨true, .obj []⟩ (.obj []) (some (.obj [("method", .str "GET")]))
      ⟨.obj [], .obj [], .obj [], .obj [], 0⟩ 0 =
      (⟨.num 503, errorBody "Server is shutting down", [], 0, false⟩, false) :=
  shutdown_shortcircuits_all_requests ⟨true, .obj []⟩ (.obj [])
    (some (.obj [("method", .str "GET")])) ⟨.obj [], .obj [], .obj [], .obj [], 0⟩ 0 rfl

/-- The premium/basic scenario route of claim C5. -/
def c5Route : JSValue :=
  .obj [("method", .str "GET"), ("path", .str "/premium-content"),
    ("conditions", .obj [("query", .obj [("type", .str "premium")])]),
    ("response", .obj [("msg", .str "A")]),
    ("fallback", .obj [("msg", .str "B")])]

/-- Claim C5.  When a route's conditions do not match, the handler sends
the fallback body with status 200 if a fallback is configured and 400
`\x7b error: "Conditions not met" \x7d` otherwise; on the concrete scenario
route, `?type=premium` yields 200 `\x7b msg: "A" \x7d` and `?type=basic`
yields 200 `\x7b msg: "B" \x7d`. -/
theorem conditions_fallback_behavior :
    (∀ (route : JSValue) (req : Req) (now : Int),
      truthy (jsIndex route "conditions") = true →
      checkConditions (jsIndex route "conditions") req = .ok false →
      handleRoute route req now =
        (if truthy (jsIndex route "fallback") then
          ⟨.num 200, jsIndex route "fallback", [], 0, false⟩
        else ⟨.num 400, errorBody "Conditions not met", [], 0, false⟩)) ∧
    handleRoute c5Route ⟨.obj [], .obj [("type", .str "premium")], .obj [], .obj [], 0⟩ 0 =
      ⟨.num 200, .obj [("msg", .str "A")], [], 0, true⟩ ∧
    handleRoute c5Route ⟨.obj [], .obj [("type", .str "basic")], .obj [], .obj [], 0⟩ 0 =
      ⟨.num 200, .obj [("msg", .str "B")], [], 0, false⟩ := by
  refine ⟨?_, rfl, rfl⟩
  intro route req now hc hm
  by_cases hf : truthy (jsIndex route "fallback") = true <;>
    simp [handleRoute, handleRouteCore, hc, hm, hf]

/-- Witness for claim C5 at a concrete input: a condition mismatch on a
route without a fallback answers 400. -/
theorem conditions_fallback_behavior_witness :
    handleRoute (.obj [("method", .str "GET"), ("path", .str "/p"),
        ("conditions", .obj [("query", .obj [("type", .str "premium")])]),
        ("response", .obj [("msg", .str "A")])])
      ⟨.obj [], .obj [("type", .str "basic")], .obj [], .obj [], 0⟩ 0 =
      ⟨.num 400, errorBody "Conditions not met", [], 0, false⟩ := by
  have h := conditions_fallback_behavior.1
    (.obj [("method", .str "GET"), ("path", .str "/p"),
      ("conditions", .obj [("query", .obj [("type", .str "premium")])]),
      ("response", .obj [("msg", .str "A")])])
    ⟨.obj [], .obj [("type", .str "basic")], .obj [], .obj [], 0⟩ 0 rfl rfl
  simpa using h

/-- The error-simulation route of claim C6. -/
def c6Route : JSValue :=
  .obj [("method", .str "GET"), ("path", .str "/error"),
    ("errorCode", .num 500), ("errorMessage", .str "boom"),
    ("response", .obj [("msg", .str "ignored")]), ("delay", .num 100)]

/-- Claim C6.  A route with `errorCode` set (an integer in [400,599], per
the RouteSpec invariant) whose conditions pass answers with that status
and `\x7b error: errorMessage \x7d` (default `Internal server error`),
with zero awaited delay and without rendering the configured response —
for every configured `response` and `delay` value. -/
theorem errorCode_shortcircuit (route : JSValue) (req : Req) (now : Int) (c : Int)
    (hcond : truthy (jsIndex route "conditions") = false ∨
      checkConditions (jsIndex route "conditions") req = .ok true)
    (hec : jsIndex route "errorCode" = .num c) (hlo : 400 ≤ c) (hhi : c ≤ 599) :
    handleRoute route req now =
      ⟨.num c,
        (if truthy (jsIndex route "errorMessage") then
          JSValue.obj [("error", jsIndex route "errorMessage")]
        else errorBody "Internal server error"),
        routeHeadersSet route req now, 0, false⟩ := by
  have htr : truthy (JSValue.num c) = true := by
    simp only [truthy, bne_iff_ne, ne_eq]
    omega
  rcases hcond with hc | hc
  · simp [handleRoute, handleRouteCore, hc, handleRouteProceed, htr, hec]
  · by_cases hcc : truthy (jsIndex route "conditions") = true
    · simp [handleRoute, handleRouteCore, hcc, hc, handleRouteProceed, htr, hec]
    · simp only [Bool.not_eq_true] at hcc
      simp [handleRoute, handleRouteCore, hcc, handleRouteProceed, htr, hec]

/-- Witness for claim C6 at the spec's scenario-2 route. -/
theorem errorCode_shortcircuit_witness :
    handleRoute c6Route ⟨.obj [], .obj [], .obj [], .obj [], 0⟩ 0 =
      ⟨.num 500, .obj [("error", .str "boom")], [], 0, false⟩ := by
  have h := errorCode_shortcircuit c6Route ⟨.obj [], .obj [], .obj [], .obj [], 0⟩ 0 500
    (Or.inl rfl) rfl (by decide) (by decide)
  simpa using h

/-- Claim C10.  `processTemplate` mutates the caller's context object: for
every template string and every object `data`, when `data.startTime` is
absent or not a number the function writes the current timestamp into
`data.startTime` (visible to the caller, independent of whether rendering
succeeds), and when `data.startTime` is already a number the object is
left unchanged. -/
theorem processTemplate_startTime_mutation (s : String)
    (fields : List (String × JSValue)) (now : Int) :
    (isNumberVal (jsIndex (.obj fields) "startTime") = false →
      (processTemplate (.str s) (.obj fields) now).2 =
        jsSetField (.obj fields) "startTime" (.num now)) ∧
    (isNumberVal (jsIndex (.obj fields) "startTime") = true →
      (processTemplate (.str s) (.obj fields) now).2 = .obj fields) := by
  have key : ∀ prepared : JSValue,
      (match hbRender prepared s with
       | .error _ => ((.error () : Except Unit String), prepared)
       | .ok result =>
          if result = "" then (.error (), prepared) else (.ok result, prepared)).2
        = prepared := by
    intro prepared
    rcases hbRender prepared s with e | r
    · rfl
    · by_cases hr : r = "" <;> simp [hr]
  constructor <;> intro h <;>
    simp only [processTemplate, truthy, if_true, h, Bool.false_eq_true, if_false] <;>
    exact key _

/-- Witness for claim C10 at a concrete input. -/
theorem processTemplate_startTime_mutation_witness :
    (processTemplate (.str "hi") (.obj [("a", .num 1)]) 7).2 =
      .obj [("a", .num 1), ("startTime", .num 7)] ∧
    (processTemplate (.str "hi") (.obj [("startTime", .num 3)]) 7).2 =
      .obj [("startTime", .num 3)] :=
  ⟨(processTemplate_startTime_mutation "hi" [("a", .num 1)] 7).1 rfl,
   (processTemplate_startTime_mutation "hi" [("startTime", .num 3)] 7).2 rfl⟩

/-- The route of claim C1: one header renders fine, one header's template
evaluates to the empty string and therefore throws. -/
def c1Route : JSValue :=
  .obj [("method", .str "GET"), ("path", .str "/t"),
    ("headers", .obj [("X-Request-Id", .str "abc"),
      ("X-Bad", .str "\x7b\x7bmissing\x7d\x7d")]),
    ("response", .obj [("ok", .bool true)])]

/-- Claim C1, counterexample.  On `c1Route` the second route header fails
to render, yet the request is not aborted with 500: the dispatcher skips
the failing header, sets the first header plus `X-Header-Warning`, and
sends the 200 success response — some headers were set and a success
response followed, which the claim rules out. -/
theorem routeHeaderFailure_counterexample :
    (processTemplate (.str "\x7b\x7bmissing\x7d\x7d")
      (mkTemplateData ⟨.obj [], .obj [], .obj [], .obj [], 0⟩ 0) 0).1 = .error () ∧
    handleRoute c1Route ⟨.obj [], .obj [], .obj [], .obj [], 0⟩ 0 =
      ⟨.num 200, .obj [("ok", .bool true)],
        [("X-Request-Id", "abc"), ("X-Header-Warning", "Failed to process 1 headers")],
        0, true⟩ :=
  ⟨rfl, rfl⟩

/-- Claim C1, amended.  A route-specific header failure is handled exactly
like a global one: the failing header is skipped, the successfully
rendered headers are kept, an `X-Header-Warning` counting the failures is
added, and the request proceeds — in particular when the conditions pass,
no `errorCode` is set and the response body renders, the request still
succeeds with 200 despite any number of header failures. -/
theorem routeHeaderFailure_degrades_gracefully (route : JSValue) (req : Req) (now : Int)
    (hcond : truthy (jsIndex route "conditions") = false ∨
      checkConditions (jsIndex route "conditions") req = .ok true)
    (herr : truthy (jsIndex route "errorCode") = false)
    (response : JSValue)
    (hresp : processJsonTemplate (mkTemplateData req now) now (jsIndex route "response")
      = .ok response) :
    (handleRoute route req now).status = .num 200 ∧
    (handleRoute route req now).body = response ∧
    (handleRoute route req now).headersSet = routeHeadersSet route req now ∧
    (0 < routeHeaderErrors route req now →
      ("X-Header-Warning", headerWarning (routeHeaderErrors route req now)) ∈
        routeHeadersSet route req now) := by
  have hpro : handleRouteProceed route req now =
      ⟨.num 200, response, routeHeadersSet route req now, routeDelay route, true⟩ := by
    unfold handleRouteProceed
    rw [if_neg (by simp [herr])]
    simp [hresp]
  have hmain : handleRoute route req now =
      ⟨.num 200, response, routeHeadersSet route req now, routeDelay route, true⟩ := by
    rcases hcond with hc | hc
    · simp [handleRoute, handleRouteCore, hc, hpro]
    · by_cases hcc : truthy (jsIndex route "conditions") = true
      · simp [handleRoute, handleRouteCore, hcc, hc, hpro]
      · simp only [Bool.not_eq_true] at hcc
        simp [handleRoute, handleRouteCore, hcc, hpro]
  have hwarn : 0 < routeHeaderErrors route req now →
      ("X-Header-Warning", headerWarning (routeHeaderErrors route req now)) ∈
        routeHeadersSet route req now := by
    intro hpos
    unfold routeHeaderErrors at hpos ⊢
    unfold routeHeadersSet
    by_cases hh : truthy (jsIndex route "headers") = true
    · simp only [hh, if_true] at hpos ⊢
      rw [if_pos hpos]
      exact List.mem_append_right _ (List.mem_singleton.mpr rfl)
    · simp only [Bool.not_eq_true] at hh
      simp [hh] at hpos
  exact ⟨by rw [hmain], by rw [hmain], by rw [hmain], hwarn⟩

/-- Witness for the amended claim C1 at `c1Route`, whose second header
fails: the request still answers 200 with the rendered body. -/
theorem routeHeaderFailure_degrades_gracefully_witness :
    (handleRoute c1Route ⟨.obj [], .obj [], .obj [], .obj [], 0⟩ 0).status = .num 200 ∧
    (handleRoute c1Route ⟨.obj [], .obj [], .obj [], .obj [], 0⟩ 0).body =
      .obj [("ok", .bool true)] :=
  ⟨(routeHeaderFailure_degrades_gracefully c1Route ⟨.obj [], .obj [], .obj [], .obj [], 0⟩ 0
      (Or.inl rfl) rfl (.obj [("ok", .bool true)]) rfl).1,
   (routeHeaderFailure_degrades_gracefully c1Route ⟨.obj [], .obj [], .obj [], .obj [], 0⟩ 0
      (Or.inl rfl) rfl (.obj [("ok", .bool true)]) rfl).2.1⟩

/-- On template-free text the rendering loop copies its input verbatim
(given enough fuel, which the initial call always has). -/
theorem hbChars_templateFree (ctx : JSValue) :
    ∀ (fuel : Nat) (cs : List Char), templateFreeChars cs = true →
      cs.length ≤ fuel → hbChars ctx fuel cs = .ok cs
  | fuel, [], _, _ => by cases fuel <;> rfl
  | fuel + 1, c :: rest, h, hlen => by
      rw [templateFreeChars, Bool.and_eq_true] at h
      have hnot : ¬(c = '{' ∧ rest.head? = some '{') := by
        have h1 := h.1
        simp only [Bool.or_eq_true, bne_iff_ne, ne_eq] at h1
        intro hand
        rcases h1 with h1 | h1
        · exact h1 hand.1
        · exact h1 hand.2
      have hlen2 : rest.length ≤ fuel := by
        simp only [List.length_cons] at hlen
        omega
      unfold hbChars
      rw [if_neg hnot, hbChars_templateFree ctx fuel rest h.2 hlen2]

/-- `processTemplate` returns a template-free nonempty string unchanged,
for every context. -/
theorem processTemplate_templateFree (s : String) (data : JSValue) (now : Int)
    (hfree : templateFreeChars s.data = true) (hne : (s != "") = true) :
    (processTemplate (.str s) data now).1 = .ok s := by
  have hrender : ∀ ctx : JSValue, hbRender ctx s = .ok s := by
    intro ctx
    unfold hbRender
    rw [hbChars_templateFree ctx s.data.length s.data hfree (le_refl _)]
    rfl
  have hne2 : ¬(s = "") := by simpa using hne
  simp only [processTemplate, hrender]
  simp [hne2]

mutual

/-- Identity of `processJsonTemplate` on template-free values with no
empty string leaves. -/
theorem processJsonTemplate_templateFree_id (data : JSValue) (now : Int) :
    ∀ v : JSValue, templateFreeJson v = true → noEmptyStringLeaf v = true →
      processJsonTemplate data now v = .ok v
  | .undefined, _, _ => rfl
  | .null, _, _ => rfl
  | .bool _, _, _ => rfl
  | .num _, _, _ => rfl
  | .str s, h1, h2 => by
      have hfree : templateFreeChars s.data = true := by
        simpa [templateFreeJson, allStringLeaves] using h1
      have hne : (s != "") = true := by
        simpa [noEmptyStringLeaf, allStringLeaves] using h2
      simp [processJsonTemplate, processTemplate_templateFree s data now hfree hne]
  | .arr items, h1, h2 => by
      have hl := processJsonList_templateFree_id data now items
        (by simpa [templateFreeJson, allStringLeaves] using h1)
        (by simpa [noEmptyStringLeaf, allStringLeaves] using h2)
      simp [processJsonTemplate, hl]
  | .obj fields, h1, h2 => by
      have hf := processJsonFields_templateFree_id data now fields
        (by simpa [templateFreeJson, allStringLeaves] using h1)
        (by simpa [noEmptyStringLeaf, allStringLeaves] using h2)
      simp [processJsonTemplate, hf]

/-- List part of the identity of `processJsonTemplate`. -/
theorem processJsonList_templateFree_id (data : JSValue) (now : Int) :
    ∀ items : List JSValue,
      allStringLeavesList (fun s => templateFreeChars s.data) items = true →
      allStringLeavesList (fun s => s != "") items = true →
      processJsonList data now items = .ok items
  | [], _, _ => rfl
  | v :: rest, h1, h2 => by
      rw [allStringLeavesList, Bool.and_eq_true] at h1 h2
      have hv := processJsonTemplate_templateFree_id data now v h1.1 h2.1
      have hr := processJsonList_templateFree_id data now rest h1.2 h2.2
      simp [processJsonList, hv, hr]

/-- Field part of the identity of `processJsonTemplate`. -/
theorem processJsonFields_templateFree_id (data : JSValue) (now : Int) :
    ∀ fields : List (String × JSValue),
      allStringLeavesFields (fun s => templateFreeChars s.data) fields = true →
      allStringLeavesFields (fun s => s != "") fields = true →
      processJsonFields data now fields = .ok fields
  | [], _, _ => rfl
  | (k, v) :: rest, h1, h2 => by
      rw [allStringLeavesFields, Bool.and_eq_true] at h1 h2
      have hv := processJsonTemplate_templateFree_id data now v h1.1 h2.1
      have hr := processJsonFields_templateFree_id data now rest h1.2 h2.2
      simp [processJsonFields, hv, hr]

end

/-- Claim C7, counterexample.  The empty string contains no template
syntax, yet rendering it is not the identity: `processTemplate` throws
`Template produced empty result`, so `processJsonTemplate` fails on the
value instead of returning it unchanged. -/
theorem renderJson_empty_string_counterexample :
    templateFreeJson (.str "") = true ∧
    processJsonTemplate (.obj []) 0 (.str "") = .error () :=
  ⟨rfl, rfl⟩

/-- Claim C7, amended.  `processJsonTemplate` is the identity, for every
context, on every value that contains no template syntax in any string
leaf and none of whose string leaves is the empty string — the empty
string leaf is the one template-free shape on which rendering fails
instead. -/
theorem renderJson_identity_on_template_free (v data : JSValue) (now : Int)
    (h1 : templateFreeJson v = true) (h2 : noEmptyStringLeaf v = true) :
    processJsonTemplate data now v = .ok v :=
  processJsonTemplate_templateFree_id data now v h1 h2

/-- Witness for the amended claim C7 at a concrete input covering
strings, numbers, booleans, null, arrays and nested objects. -/
theorem renderJson_identity_on_template_free_witness :
    processJsonTemplate (.obj [("id", .str "42")]) 0
      (.obj [("id", .str "42"),
        ("tags", .arr [.str "a", .num 7, .bool true, .null]),
        ("nested", .obj [("name", .str "User 42")])]) =
      .ok (.obj [("id", .str "42"),
        ("tags", .arr [.str "a", .num 7, .bool true, .null]),
        ("nested", .obj [("name", .str "User 42")])]) :=
  renderJson_identity_on_template_free
    (.obj [("id", .str "42"),
      ("tags", .arr [.str "a", .num 7, .bool true, .null]),
      ("nested", .obj [("name", .str "User 42")])])
    (.obj [("id", .str "42")]) 0 rfl rfl

end MockServer
